import Mathlib

/-!
Verification of the memory subsystem and request pipeline of a
conversational-AI backend (general_chatbot).  The Python source is shallowly
embedded: strings are lists of characters, float scores are integers in
thousandths (every score constant of the source is a multiple of 0.005, so
the embedding is exact and kernel-evaluable),
external collaborators (Redis, the vector store, the embedding client and the
LLM) are parameters of the embedded functions, and the wall clock is passed
explicitly where the source reads it.
-/

/-! ## String utilities shared by several components -/

/-- Does the first list start with the second one (pattern)? -/
def listStartsWith : List Char → List Char → Bool
  | _, [] => true
  | [], _ :: _ => false
  | c :: cs, p :: ps => c == p && listStartsWith cs ps

/-- Python substring test: pat in s.  True iff pat occurs contiguously in s. -/
def listContains : List Char → List Char → Bool
  | s, pat =>
    match s with
    | [] => pat.isEmpty
    | _ :: cs => listStartsWith s pat || listContains cs pat

/-- Python str.lower, character by character. -/
def pyLower (l : List Char) : List Char := l.map Char.toLower

/-- CJK codepoint test used by the token estimator: u4e00 <= c <= u9fff. -/
def isCJK (c : Char) : Bool := 0x4e00 ≤ c.toNat && c.toNat ≤ 0x9fff

/-- Python str.isalpha at character level, restricted to the character
classes used by this code base: ASCII letters and CJK unified ideographs
(both are Unicode-alphabetic in Python). -/
def pyIsAlphaChar (c : Char) : Bool := c.isAlpha || isCJK c

/-- Python str.isalpha on a token: nonempty and all characters alphabetic. -/
def pyIsAlphaWord (w : List Char) : Bool := !w.isEmpty && w.all pyIsAlphaChar

/-- Python str.split() with no separator: split on whitespace runs,
discarding empty tokens.  The accumulator holds the current token reversed. -/
def splitWsAux : List Char → List Char → List (List Char)
  | [], acc => if acc.isEmpty then [] else [acc.reverse]
  | c :: cs, acc =>
    if c.isWhitespace then
      if acc.isEmpty then splitWsAux cs [] else acc.reverse :: splitWsAux cs []
    else
      splitWsAux cs (c :: acc)

/-- Python str.split() with no arguments. -/
def splitWs (s : List Char) : List (List Char) := splitWsAux s []

/-- Python negative-slice l[-n:]: the last n elements (all of l when its
length is at most n). -/
def lastN (n : Nat) (l : List α) : List α := l.drop (l.length - n)

/-- Python min on two scores, written so that the kernel can evaluate it
(the order-theoretic min does not reduce definitionally). -/
def pyMin (a b : ℤ) : ℤ := if a ≤ b then a else b

/-- Python max on two scores, kernel-evaluable. -/
def pyMax (a b : ℤ) : ℤ := if a ≤ b then b else a

/-! ## Importance scorer (src/server/memory/importance_calculator.py)

Scores are integers in thousandths (0.25 is written 250); every constant of
the source is a multiple of 0.005, so this embedding is exact.  The only
impurity of the source, datetime.now().hour in _calculate_context_score, is
passed in as the explicit argument hour. -/

namespace ImportanceCalculator

/-- self.importance_keywords['high'] -/
def importance_keywords_high : List (List Char) :=
  ["重要".data, "关键".data, "必须".data, "紧急".data, "优先".data,
   "核心".data, "主要".data, "决定".data, "选择".data]

/-- self.importance_keywords['medium'] -/
def importance_keywords_medium : List (List Char) :=
  ["需要".data, "想要".data, "希望".data, "计划".data, "打算".data,
   "考虑".data, "建议".data, "推荐".data]

/-- self.importance_keywords['low'] -/
def importance_keywords_low : List (List Char) :=
  ["可能".data, "也许".data, "大概".data, "或者".data, "随便".data, "无所谓".data]

/-- self.personal_keywords -/
def personal_keywords : List (List Char) :=
  ["我的".data, "我是".data, "我在".data, "我会".data, "我想".data,
   "我需要".data, "我喜欢".data, "我不喜欢".data, "我讨厌".data, "我爱".data,
   "我恨".data, "我的名字".data, "我今年".data, "我住在".data, "我的职业".data,
   "我的工作".data, "我的爱好".data, "我的兴趣".data, "我的家人".data, "我的朋友".data]

/-- self.emotion_keywords['strong_positive'] -/
def emotion_strong_positive : List (List Char) :=
  ["非常喜欢".data, "超级爱".data, "特别".data, "极其".data, "绝对".data, "完全".data]

/-- self.emotion_keywords['strong_negative'] -/
def emotion_strong_negative : List (List Char) :=
  ["非常讨厌".data, "超级恨".data, "绝对不".data, "完全不能".data, "极其".data]

/-- self.emotion_keywords['moderate_positive'] -/
def emotion_moderate_positive : List (List Char) :=
  ["喜欢".data, "爱".data, "好".data, "不错".data, "可以".data]

/-- self.emotion_keywords['moderate_negative'] -/
def emotion_moderate_negative : List (List Char) :=
  ["讨厌".data, "不喜欢".data, "不好".data, "不行".data, "不能".data]

/-- Source method _calculate_length_score (0.25/0.2/0.15/0.1/0.05 in thousandths). -/
def calculate_length_score (message response : List Char) : ℤ :=
  let total_length := message.length + response.length
  if total_length > 1000 then 250
  else if total_length > 500 then 200
  else if total_length > 200 then 150
  else if total_length > 100 then 100
  else 50

/-- Source method _calculate_intent_score: self.intent_weights.get(intent, 0.1), in
thousandths. -/
def calculate_intent_score (intent : String) : ℤ :=
  if intent == "search" then 400
  else if intent == "web" then 400
  else if intent == "file" then 400
  else if intent == "code" then 300
  else if intent == "image" then 300
  else if intent == "normal" then 100
  else if intent == "greeting" then 50
  else if intent == "goodbye" then 50
  else 100

/-- Number of keywords of the lexicon occurring in the text
(sum(1 for keyword in lexicon if keyword in text)). -/
def keywordCount (lexicon : List (List Char)) (text : List Char) : Nat :=
  (lexicon.filter (fun k => listContains text k)).length

/-- Source method _calculate_keyword_score: +0.03 per high keyword capped at 0.15, +0.01
per medium capped at 0.05, -0.005 per low capped at 0.02, floored at 0
(all in thousandths). -/
def calculate_keyword_score (message response : List Char) : ℤ :=
  let text := pyLower (message ++ [' '] ++ response)
  let high_count := keywordCount importance_keywords_high text
  let s1 : ℤ := if high_count > 0 then pyMin 150 ((high_count : ℤ) * 30) else 0
  let medium_count := keywordCount importance_keywords_medium text
  let s2 : ℤ := if medium_count > 0 then pyMin 50 ((medium_count : ℤ) * 10) else 0
  let low_count := keywordCount importance_keywords_low text
  let s3 : ℤ := if low_count > 0 then pyMin 20 ((low_count : ℤ) * 5) else 0
  pyMax 0 (s1 + s2 - s3)

/-- Source method _calculate_personal_score (0.1/0.07/0.05 in thousandths). -/
def calculate_personal_score (message : List Char) : ℤ :=
  let personal_count := keywordCount personal_keywords message
  if personal_count ≥ 3 then 100
  else if personal_count ≥ 2 then 70
  else if personal_count ≥ 1 then 50
  else 0

/-- Source method _calculate_emotion_score (+0.03 strong, +0.02 moderate, capped at
0.05, in thousandths). -/
def calculate_emotion_score (message response : List Char) : ℤ :=
  let text := pyLower (message ++ [' '] ++ response)
  let strong_positive := keywordCount emotion_strong_positive text
  let strong_negative := keywordCount emotion_strong_negative text
  let s1 : ℤ := if strong_positive > 0 ∨ strong_negative > 0 then 30 else 0
  let moderate_positive := keywordCount emotion_moderate_positive text
  let moderate_negative := keywordCount emotion_moderate_negative text
  let s2 : ℤ := if moderate_positive > 0 ∨ moderate_negative > 0 then 20 else 0
  pyMin (s1 + s2) 50

/-- The conversation_context dictionary, with the two keys the scorer reads
(context.get with defaults 0).  A Python None or empty dict is modelled as
Option.none at the call site of calculate_context_score. -/
structure ConversationContext where
  turn_count : Nat
  user_activity_score : ℤ
deriving DecidableEq

/-- Source method _calculate_context_score, in thousandths (the user_activity_score
thresholds 0.8/0.5/0.2 become 800/500/200).  hour is datetime.now().hour
at call time. -/
def calculate_context_score (context : Option ConversationContext) (hour : Nat) : ℤ :=
  match context with
  | none => 0
  | some ctx =>
    let s1 : ℤ :=
      if ctx.turn_count > 10 then 30
      else if ctx.turn_count > 5 then 20
      else if ctx.turn_count > 2 then 10
      else 0
    let s2 : ℤ := if 9 ≤ hour ∧ hour ≤ 18 then 20 else 0
    let s3 : ℤ :=
      if ctx.user_activity_score > 800 then 30
      else if ctx.user_activity_score > 500 then 20
      else if ctx.user_activity_score > 200 then 10
      else 0
    pyMin (s1 + s2 + s3) 100

/-- calculate_conversation_importance: the sum of the six components,
clamped to the unit interval (0..1000 in thousandths).  user_id is
accepted and ignored as in the source; hour is the wall-clock hour read
inside _calculate_context_score. -/
def calculate_conversation_importance (message response : List Char)
    (intent : String) (user_id : String)
    (conversation_context : Option ConversationContext) (hour : Nat) : ℤ :=
  let total_score :=
    calculate_length_score message response
    + calculate_intent_score intent
    + calculate_keyword_score message response
    + calculate_personal_score message
    + calculate_emotion_score message response
    + calculate_context_score conversation_context hour
  pyMin (pyMax total_score 0) 1000

end ImportanceCalculator

/-! ## Long-term memory (src/server/memory/long_term_memory.py)

The embedding client, the vector-store upsert and the fresh UUID are
parameters: embedding is the vector returned by embed_text (the Python
falsiness test "if not embedding" is emptiness), upsert_ok tells whether
qdrant upsert succeeds, and fresh_id is the UUID that add_semantic_memory
mints.  Exceptions are modelled by the value each handler turns them into. -/

namespace LongTermMemory

/-- The result dictionary of process_conversation_for_storage, with the
fields the claims are about. -/
structure StorageResult where
  stored : Bool
  memory_id : Option String
  importance_score : ℤ
  reason : String
deriving DecidableEq

/-- self.min_importance_score (0.6, in thousandths). -/
def min_importance_score : ℤ := 600

/-- qdrant_manager.add_semantic_memory: returns a fresh UUID, or the empty
string when the upsert raises (the handler logs and returns ""). -/
def add_semantic_memory (upsert_ok : Bool) (fresh_id : String) : String :=
  if upsert_ok then fresh_id else ""

/-- Source method _store_semantic_memory: an empty embedding raises
"Failed to generate embedding", which the function's own handler catches,
returning ""; otherwise the qdrant write is attempted. -/
def store_semantic_memory (embedding : List ℚ) (upsert_ok : Bool)
    (fresh_id : String) : String :=
  if embedding.isEmpty then ""
  else add_semantic_memory upsert_ok fresh_id

/-- process_conversation_for_storage.  The conversation_context passed to
the scorer is the literal dict built in the source: turn_count 1 and no
user_activity_score (so the .get default 0 applies). -/
def process_conversation_for_storage (enabled : Bool)
    (message response : List Char) (intent : String) (user_id : String)
    (hour : Nat) (embedding : List ℚ) (upsert_ok : Bool) (fresh_id : String) :
    StorageResult :=
  if !enabled then
    ⟨false, none, 0, "Long-term memory disabled"⟩
  else
    let importance_score := ImportanceCalculator.calculate_conversation_importance
      message response intent user_id (some ⟨1, 0⟩) hour
    if importance_score ≥ min_importance_score then
      let memory_id := store_semantic_memory embedding upsert_ok fresh_id
      ⟨true, some memory_id, importance_score, "Importance threshold met"⟩
    else
      ⟨false, none, importance_score, "Importance score below threshold"⟩

end LongTermMemory

/-! ## Short-term memory (src/server/memory/short_term_memory.py) -/

namespace ShortTermMemory

/-- One stored turn, as the dictionaries handled by
_count_tokens_for_messages and _incremental_compression. -/
structure Msg where
  user_message : List Char
  ai_response : List Char
deriving DecidableEq

/-- The text accumulated by the loop of _count_tokens_for_messages:
total_text += msg.get('user_message', '') + " " + msg.get('ai_response', ''). -/
def messages_text (messages : List Msg) : List Char :=
  (messages.map (fun m => m.user_message ++ [' '] ++ m.ai_response)).flatten

/-- Source method _count_tokens_for_messages:
int(chinese_chars * 1.5 + english_words), where chinese_chars counts CJK
codepoints and english_words counts whitespace-split tokens that satisfy
str.isalpha.  int truncation of c * 1.5 + e is (3 * c) / 2 + e in Nat. -/
def count_tokens_for_messages (messages : List Msg) : Nat :=
  let total_text := messages_text messages
  let chinese_chars := (total_text.filter isCJK).length
  let english_words := ((splitWs total_text).filter pyIsAlphaWord).length
  (3 * chinese_chars) / 2 + english_words

/-- self.max_tokens -/
def max_tokens : Nat := 3000

/-- self.warning_tokens -/
def warning_tokens : Nat := 2500

/-- Compression priorities. -/
inductive Priority where
  | normal
  | high
deriving DecidableEq

/-- The compression-enqueue decision of smart_store_conversation (lines
308-320): if total_tokens > warning_tokens, a task is queued with priority
high when total_tokens > max_tokens and normal otherwise; below that no
task is queued. -/
def smart_store_decision (all_messages : List Msg) : Option Priority :=
  let total_tokens := count_tokens_for_messages all_messages
  if total_tokens > warning_tokens then
    some (if total_tokens > max_tokens then .high else .normal)
  else
    none

/-- A queued compression task (the id, user, conversation and priority
fields of the task dict; created_at and status do not affect the queue). -/
structure Task where
  id : String
  user_id : String
  conversation_id : String
  priority : Priority
deriving DecidableEq

/-- self.max_queue_size -/
def max_queue_size : Nat := 100

/-- Result of one _queue_compression_task call: the queue afterwards (head
of the list is the front of the deque), whether the new task was added, and
whether the call died in its own exception handler. -/
structure QueueResult where
  queue : List Task
  added : Bool
  errored : Bool
deriving DecidableEq

/-- Source method _queue_compression_task.  When the queue is full and the new task has
high priority, the source runs self.compression_queue.pop(i) on the first
normal-priority task found; collections.deque.pop takes no argument, so
this raises TypeError, which the function's blanket handler swallows: the
queue is left unchanged and the new task is dropped (errored = true).
When the full queue holds no normal task the new high task is rejected
(logged); a full queue receiving a normal task discards its front
(popleft).  Below capacity, high tasks go to the front (appendleft) and
normal tasks to the back (append). -/
def queue_compression_task (queue : List Task) (task : Task) : QueueResult :=
  if queue.length ≥ max_queue_size then
    if task.priority = .high then
      if queue.any (fun t => t.priority = .normal) then
        ⟨queue, false, true⟩
      else
        ⟨queue, false, false⟩
    else
      ⟨queue.tail ++ [task], true, false⟩
  else
    if task.priority = .high then
      ⟨task :: queue, true, false⟩
    else
      ⟨queue ++ [task], true, false⟩

end ShortTermMemory

/-! ## Incremental compression (_incremental_compression)

The summary generator (_generate_layer_summary, which calls the LLM) and the
stored per-layer summaries (_get_existing_summaries, a Redis read) are
parameters.  The trace records, in call order, every generation performed:
the layer, the message slice handed over, and the existing_summary argument
passed as prior. -/

namespace ShortTermMemory

/-- Summary layers. -/
inductive Layer where
  | L1
  | L2
  | L3
deriving DecidableEq

/-- self.summary_layers[layer]['max_turns'] -/
def layer_max_turns : Layer → Nat
  | .L1 => 2
  | .L2 => 5
  | .L3 => 10

/-- One call to _generate_layer_summary: its layer, messages and
existing_summary arguments. -/
structure GenEvent where
  layer : Layer
  msgs : List Msg
  prior : Option (List Char)
deriving DecidableEq

/-- Result of one _incremental_compression run: the messages kept in the
working log, the generation calls in order, and the summaries stored
(insertion order of the new_summaries dict). -/
structure CompressionTrace where
  kept : List Msg
  events : List GenEvent
  new_summaries : List (Layer × List Char)
deriving DecidableEq

/-- Source method _incremental_compression.  gen is _generate_layer_summary (None models a
generation failure or empty LLM output), existing is the stored summary per
layer.  Fewer than 6 messages is a no-op; the last
max(L1,L2,L3 caps) = 10 messages are kept; L3 is generated over all older
messages when there are at least 8 of them, L2 over the last 5 older
messages (or over all of them when 3 <= count < 8), and L1 always over the
last 2 older messages; every generation receives the previously stored
summary of its own layer as existing_summary. -/
def incremental_compression
    (gen : Layer → List Msg → Option (List Char) → Option (List Char))
    (existing : Layer → Option (List Char)) (messages : List Msg) :
    CompressionTrace :=
  let total_messages := messages.length
  if total_messages < 6 then ⟨messages, [], []⟩
  else
    let max_keep_turns :=
      max (max (layer_max_turns .L1) (layer_max_turns .L2)) (layer_max_turns .L3)
    let messages_to_keep :=
      if total_messages > max_keep_turns then
        messages.drop (total_messages - max_keep_turns)
      else messages
    let messages_to_summarize :=
      if total_messages > max_keep_turns then
        messages.take (total_messages - max_keep_turns)
      else []
    if messages_to_summarize.isEmpty then ⟨messages_to_keep, [], []⟩
    else
      let upper : List GenEvent × List (Layer × List Char) :=
        if messages_to_summarize.length ≥ 8 then
          let r3 := gen .L3 messages_to_summarize (existing .L3)
          let m2 := lastN 5 messages_to_summarize
          let r2 := gen .L2 m2 (existing .L2)
          (⟨.L3, messages_to_summarize, existing .L3⟩ ::
             [⟨.L2, m2, existing .L2⟩],
           (match r3 with | some s => [(Layer.L3, s)] | none => []) ++
           (match r2 with | some s => [(Layer.L2, s)] | none => []))
        else if messages_to_summarize.length ≥ 3 then
          let r2 := gen .L2 messages_to_summarize (existing .L2)
          ([⟨.L2, messages_to_summarize, existing .L2⟩],
           match r2 with | some s => [(Layer.L2, s)] | none => [])
        else ([], [])
      let lower : List GenEvent × List (Layer × List Char) :=
        if messages_to_summarize.length ≥ 1 then
          let m1 := lastN 2 messages_to_summarize
          let r1 := gen .L1 m1 (existing .L1)
          ([⟨.L1, m1, existing .L1⟩],
           match r1 with | some s => [(Layer.L1, s)] | none => [])
        else ([], [])
      ⟨messages_to_keep, upper.1 ++ lower.1, upper.2 ++ lower.2⟩

end ShortTermMemory

/-! ## Chat orchestrator (src/server/services/chat_service.py)

The SSE stream is the list of events yielded, in order.  Persistence
(create_messages_after_stream) is modelled by its outcome; the LLM stream is
the list of chunks it produced. -/

namespace ChatService

/-- The event types the orchestrator emits. -/
inductive SSEEvent where
  | content (text : String)
  | image (url filename : String)
  | message_created (user_message_id ai_message_id : String)
  | message_creation_error (error : String)
  | end_
deriving DecidableEq

/-- Outcome of the message-store write performed by
create_messages_after_stream. -/
inductive PersistOutcome where
  | created (user_message_id ai_message_id : String)
  | failed (error : String)
deriving DecidableEq

/-- create_messages_after_stream: builds the message_created event, or the
message_creation_error event when the repository raises. -/
def create_messages_after_stream : PersistOutcome → SSEEvent
  | .created u a => .message_created u a
  | .failed e => .message_creation_error e

/-- Is the event the persistence-result event (message_created or
message_creation_error)? -/
def isPersistenceResult : SSEEvent → Bool
  | .message_created _ _ => true
  | .message_creation_error _ => true
  | _ => false

/-- Source method _finalize_stream_response: yields the persistence-result event, then
end; the memory write that follows yields nothing. -/
def finalize_stream_response (outcome : PersistOutcome) : List SSEEvent :=
  [create_messages_after_stream outcome, .end_]

/-- Source method _handle_normal_intent: one content event per LLM chunk, then the
finalization events. -/
def handle_normal_intent (chunks : List String) (outcome : PersistOutcome) :
    List SSEEvent :=
  chunks.map .content ++ finalize_stream_response outcome

/-- Result dict of code_execution_service.execute_code. -/
structure ExecutionResult where
  success : Bool
  output : String
  images : List (String × String)
  error : String
deriving DecidableEq

/-- Source method _handle_code_intent: the processing banner, then either an early return
(no code extracted, or execution failed - no persistence, no end), or the
phase-2 answer chunks, one image event per artifact, and the finalization
events. -/
def handle_code_intent (code : Option String) (execution : ExecutionResult)
    (chunks : List String) (outcome : PersistOutcome) : List SSEEvent :=
  let processing := SSEEvent.content "🔍 正在处理您的请求...\n\n"
  match code with
  | none => [processing, .content "❌ 无法生成分析代码\n"]
  | some _ =>
    if !execution.success then
      [processing, .content ("❌ 执行失败: " ++ execution.error ++ "\n")]
    else
      processing :: chunks.map .content
        ++ execution.images.map (fun p => .image p.1 p.2)
        ++ finalize_stream_response outcome

end ChatService

/-! ## Intent classifier (src/server/services/intent_service.py)

detect_urls embeds the regex
http[s]?://(letters|digits|[$-_@.&+]|[!*(),]|%hex%hex)+ as a scanner:
at each position a match needs the literal http, an optional s, ://, and a
maximal nonempty run of characters of the class; on success scanning
resumes after the match, otherwise at the next character.  The class
[$-_@.&+] is the codepoint range 0x24-0x5f (which already covers @ . & +,
the digits and the uppercase letters) and [!*\(\),] adds ! * ( ) ,.
The web page analyzer, the LLM intent arbitration (analyze_with_llm's parsed
triple) and the search service are parameters. -/

namespace IntentService

/-- IntentType enum. -/
inductive IntentType where
  | file
  | web
  | search
  | code
  | normal
deriving DecidableEq

/-- One attachment as the dicts process_intent inspects. -/
structure Attachment where
  atype : String
  filename : String
  content : String
deriving DecidableEq

/-- IntentResult dataclass (search_results kept as an opaque payload;
confidence in thousandths). -/
structure IntentResult where
  intent : IntentType
  content : String
  search_results : Option String
  confidence : Nat
  reasoning : String
deriving DecidableEq

/-- Character class of the URL regex. -/
def urlChar (c : Char) : Bool :=
  let n := c.toNat
  (0x61 ≤ n && n ≤ 0x7a) || (0x41 ≤ n && n ≤ 0x5a) || (0x30 ≤ n && n ≤ 0x39)
    || (0x24 ≤ n && n ≤ 0x5f)
    || n == 0x21 || n == 0x2a || n == 0x28 || n == 0x29 || n == 0x2c

/-- Try the URL pattern at the head of the list; on success return the match
and the remaining characters.  The optional s backtracks exactly as the
regex does: https:// is preferred, plain http:// otherwise. -/
def matchUrlAt : List Char → Option (List Char × List Char)
  | 'h' :: 't' :: 't' :: 'p' :: rest =>
    match rest with
    | 's' :: ':' :: '/' :: '/' :: body =>
      let run := body.takeWhile urlChar
      if run.isEmpty then none
      else some ("https://".data ++ run, body.drop run.length)
    | ':' :: '/' :: '/' :: body =>
      let run := body.takeWhile urlChar
      if run.isEmpty then none
      else some ("http://".data ++ run, body.drop run.length)
    | _ => none
  | _ => none

/-- re.findall scanning loop.  Fuel decreases on every step; a successful
match consumes at least eight characters and a failure advances one, so
fuel equal to the text length always suffices. -/
def find_urls_aux : Nat → List Char → List (List Char)
  | 0, _ => []
  | _ + 1, [] => []
  | fuel + 1, c :: cs =>
    match matchUrlAt (c :: cs) with
    | some (m, rest) => m :: find_urls_aux fuel rest
    | none => find_urls_aux fuel cs

/-- detect_urls: self.url_pattern.findall(text). -/
def detect_urls (text : String) : List String :=
  (find_urls_aux text.data.length text.data).map (fun l => ⟨l⟩)

/-- Outcome of web_analyzer.analyze_web_page: the title/content dict, or the
message of the exception it raised. -/
inductive WebFetch where
  | ok (title content : String)
  | exn (error_msg : String)
deriving DecidableEq

/-- The (intent, reasoning, confidence) triple analyze_with_llm returns
after parsing the LLM reply (confidence in thousandths). -/
structure LLMAnalysis where
  intent : String
  reasoning : String
  confidence : Nat
deriving DecidableEq

/-- Python substring test on strings. -/
def containsSub (s pat : String) : Bool := listContains s.data pat.data

/-- Steps 2-3 of process_intent: URL-in-message handling, else the LLM
arbitration (with the synchronous search for intent search). -/
def process_message_intent (fetch : String → WebFetch) (llm : LLMAnalysis)
    (search : Except String String) (message : String) : IntentResult :=
  match detect_urls message with
  | url :: _ =>
    match fetch url with
    | .ok title content =>
      ⟨.web, "标题：" ++ title ++ "\n\n内容：" ++ content, none, 1000,
       "检测到URL: " ++ url⟩
    | .exn error_msg =>
      if containsSub error_msg "反爬虫" || containsSub error_msg "安全验证" then
        ⟨.web, "错误：" ++ error_msg ++ "\n\n原始问题：" ++ message, none, 800,
         "URL分析遇到反爬虫保护: " ++ url⟩
      else
        ⟨.normal, "无法访问网页 " ++ url ++ "，错误：" ++ error_msg ++ "\n\n" ++ message,
         none, 700, "URL分析失败: " ++ error_msg⟩
  | [] =>
    if llm.intent == "search" then
      match search with
      | .ok results =>
        ⟨.search, message, some results, llm.confidence, llm.reasoning⟩
      | .error e =>
        ⟨.normal, message, none, 1000, "搜索失败，使用普通对话: " ++ e⟩
    else if llm.intent == "code" then
      ⟨.code, message, none, llm.confidence, llm.reasoning⟩
    else
      ⟨.normal, message, none, llm.confidence, llm.reasoning⟩

/-- process_intent: attachment branches first (URL attachments, then file
attachments - an attachment is a file attachment when its type is file or
differs from url), then the message branches. -/
def process_intent (fetch : String → WebFetch) (llm : LLMAnalysis)
    (search : Except String String) (message : String)
    (attachments : List Attachment) : IntentResult :=
  let rest := process_message_intent fetch llm search message
  if attachments.length > 0 then
    let url_attachments := attachments.filter (fun a => a.atype == "url")
    let file_attachments :=
      attachments.filter (fun a => a.atype == "file" || a.atype != "url")
    if !url_attachments.isEmpty then
      let web_content := url_attachments.foldl
        (fun acc a => if a.content != "" then acc ++ "\n\n" ++ a.content else acc) ""
      ⟨.web, web_content, none, 1000, "检测到URL附件"⟩
    else if !file_attachments.isEmpty then
      let file_content := file_attachments.foldl
        (fun acc a =>
          if a.content != "" then
            acc ++ "\n\n文件 " ++ a.filename ++ ":\n" ++ a.content
          else acc) ""
      ⟨.file, file_content, none, 1000, "检测到文件附件"⟩
    else rest
  else rest

end IntentService

/-! ## Redis manager (src/server/memory/redis_manager.py)

A stored list entry is modelled by what json.loads makes of it: a JSON
object (with the four extracted fields, .get defaults applied), a string
that fails to parse (json.JSONDecodeError, caught and skipped), or valid
JSON that is not an object, on which conv_data.get raises AttributeError -
that exception is not caught by the inner handler, so the outer handler
returns the empty list.  The key/value store itself is an Except: error is
a raised Redis error. -/

namespace RedisManager

/-- One entry of the conversation:user:conv list, by parse outcome. -/
inductive RedisEntry where
  | obj (message response timestamp metadata : String)
  | malformed
  | nonObject
deriving DecidableEq

/-- One element of the returned conversations list. -/
structure Conv where
  conversation_id : String
  message : String
  response : String
  timestamp : String
  metadata : String
deriving DecidableEq

/-- LRANGE key 0 (limit-1) on a newest-first list: for limit = 0 the end
index is -1, which Redis reads as the last element, so the whole list is
returned; otherwise the first limit entries. -/
def lrange_take (l : List α) (limit : Nat) : List α :=
  if limit = 0 then l else l.take limit

/-- The parsing loop of get_recent_conversations: object entries are
converted, malformed entries are skipped (continue), and a non-object entry
aborts the whole call (none). -/
def parse_loop (conversation_id : String) : List RedisEntry → Option (List Conv)
  | [] => some []
  | .obj m r t md :: restEntries =>
    (parse_loop conversation_id restEntries).map
      (fun cs => ⟨conversation_id, m, r, t, md⟩ :: cs)
  | .malformed :: restEntries => parse_loop conversation_id restEntries
  | .nonObject :: _ => none

/-- get_recent_conversations: fetch the limit newest entries, parse them,
reverse into chronological order; any uncaught exception (store error or
non-object entry) yields the empty list. -/
def get_recent_conversations (store : Except String (List RedisEntry))
    (conversation_id : String) (limit : Nat) : List Conv :=
  match store with
  | .error _ => []
  | .ok l =>
    match parse_loop conversation_id (lrange_take l limit) with
    | none => []
    | some conversations => conversations.reverse

end RedisManager

/-! ## Concrete instances used by the verification theorems -/

/-- A single turn whose token estimate is exactly 3000: 1998 CJK characters
contribute 2997 tokens and the three alphabetic tokens (the CJK run, ab,
cd) contribute 3. -/
def c2_boundary_messages : List ShortTermMemory.Msg :=
  [⟨List.replicate 1998 '中', "ab cd".data⟩]

/-- A compression queue at capacity: 99 high-priority tasks and one
normal-priority task at the back. -/
def c3_full_queue : List ShortTermMemory.Task :=
  List.replicate 99 ⟨"h", "u", "c", .high⟩ ++ [⟨"n1", "u", "c", .normal⟩]

/-- A new high-priority compression task. -/
def c3_new_high_task : ShortTermMemory.Task := ⟨"new", "u", "c", .high⟩

/-- A summary generator that always succeeds, producing S. -/
def c6_gen : ShortTermMemory.Layer → List ShortTermMemory.Msg →
    Option (List Char) → Option (List Char) :=
  fun _ _ _ => some "S".data

/-- A fixed turn used to build concrete conversations. -/
def c6_m0 : ShortTermMemory.Msg := ⟨"u".data, "a".data⟩

/-- A message from the long-term-memory counterexample: five high-importance
keywords, scoring length 0.05 + intent(search) 0.4 + keywords 0.15 = 0.6. -/
def c1_message : List Char := "重要关键必须紧急优先".data

/-- A web analyzer that succeeds on the first URL of the C9 witness message
and reports a plain failure elsewhere. -/
def c9_fetch1 : String → IntentService.WebFetch :=
  fun u => if u == "http://ab" then .ok "T" "C" else .exn "boom1"

/-- Like c9_fetch1 on the first URL, but anti-scrape elsewhere: the two
analyzers agree only on the first URL. -/
def c9_fetch2 : String → IntentService.WebFetch :=
  fun u => if u == "http://ab" then .ok "T" "C" else .exn "安全验证"

/-- A fixed LLM arbitration triple. -/
def c9_llm : IntentService.LLMAnalysis := ⟨"normal", "r", 1000⟩

/-- The conversion get_recent_conversations applies to a single parseable
entry (an object entry becomes a conversations element, anything else
nothing). -/
def entryToConv (conversation_id : String) :
    RedisManager.RedisEntry → Option RedisManager.Conv
  | .obj m r t md => some ⟨conversation_id, m, r, t, md⟩
  | .malformed => none
  | .nonObject => none

/-- Two well-formed stored entries (newest first). -/
def c10_entries : List RedisManager.RedisEntry :=
  [.obj "m2" "r2" "t2" "e2", .obj "m1" "r1" "t1" "e1"]

/-! ## Component bounds for the importance scorer -/

theorem pyMin_eq_min (a b : ℤ) : pyMin a b = min a b := by
  unfold pyMin
  split_ifs with h
  · exact (min_eq_left h).symm
  · exact (min_eq_right (le_of_not_le h)).symm

theorem pyMax_eq_max (a b : ℤ) : pyMax a b = max a b := by
  unfold pyMax
  split_ifs with h
  · exact (max_eq_right h).symm
  · exact (max_eq_left (le_of_not_le h)).symm

theorem calculate_length_score_lb (message response : List Char) :
    (50 : ℤ) ≤ ImportanceCalculator.calculate_length_score message response := by
  simp only [ImportanceCalculator.calculate_length_score]
  split_ifs <;> norm_num

theorem calculate_intent_score_lb (intent : String) :
    (50 : ℤ) ≤ ImportanceCalculator.calculate_intent_score intent := by
  simp only [ImportanceCalculator.calculate_intent_score]
  split_ifs <;> norm_num

theorem calculate_keyword_score_nonneg (message response : List Char) :
    (0 : ℤ) ≤ ImportanceCalculator.calculate_keyword_score message response := by
  simp only [ImportanceCalculator.calculate_keyword_score, pyMax_eq_max]
  exact le_max_left _ _

theorem calculate_personal_score_nonneg (message : List Char) :
    (0 : ℤ) ≤ ImportanceCalculator.calculate_personal_score message := by
  simp only [ImportanceCalculator.calculate_personal_score]
  split_ifs <;> norm_num

theorem calculate_emotion_score_nonneg (message response : List Char) :
    (0 : ℤ) ≤ ImportanceCalculator.calculate_emotion_score message response := by
  simp only [ImportanceCalculator.calculate_emotion_score, pyMin_eq_min]
  split_ifs <;> norm_num [le_min_iff]

theorem calculate_context_score_nonneg
    (context : Option ImportanceCalculator.ConversationContext) (hour : Nat) :
    (0 : ℤ) ≤ ImportanceCalculator.calculate_context_score context hour := by
  cases context with
  | none => norm_num [ImportanceCalculator.calculate_context_score]
  | some ctx =>
    simp only [ImportanceCalculator.calculate_context_score, pyMin_eq_min]
    split_ifs <;> norm_num [le_min_iff]

/-- The context component depends on the wall-clock hour only through the
working-hours test 9 <= hour <= 18. -/
theorem calculate_context_score_hour_congr
    (context : Option ImportanceCalculator.ConversationContext)
    {h1 h2 : Nat} (hiff : (9 ≤ h1 ∧ h1 ≤ 18) ↔ (9 ≤ h2 ∧ h2 ≤ 18)) :
    ImportanceCalculator.calculate_context_score context h1 =
      ImportanceCalculator.calculate_context_score context h2 := by
  cases context with
  | none => rfl
  | some ctx =>
    simp only [ImportanceCalculator.calculate_context_score]
    by_cases hp : 9 ≤ h1 ∧ h1 ≤ 18
    · rw [if_pos hp, if_pos (hiff.mp hp)]
    · rw [if_neg hp, if_neg (fun hq => hp (hiff.mpr hq))]

/-- C8: for every input the importance score is at least 0.1 (100 in
thousandths): the length component is at least 0.05, every intent (known
or unknown) contributes at least 0.05, and the keyword, personal, emotion
and context components are never negative, so after the final clamp into
the unit interval the scorer can never return less than 0.1 (in particular
never 0; the source's exception handler also returns 0.1). -/
theorem C8_importance_score_lower_bound (message response : List Char)
    (intent : String) (user_id : String)
    (context : Option ImportanceCalculator.ConversationContext) (hour : Nat) :
    (100 : ℤ) ≤ ImportanceCalculator.calculate_conversation_importance
      message response intent user_id context hour := by
  have h1 := calculate_length_score_lb message response
  have h2 := calculate_intent_score_lb intent
  have h3 := calculate_keyword_score_nonneg message response
  have h4 := calculate_personal_score_nonneg message
  have h5 := calculate_emotion_score_nonneg message response
  have h6 := calculate_context_score_nonneg context hour
  simp only [ImportanceCalculator.calculate_conversation_importance,
    pyMin_eq_min, pyMax_eq_max]
  refine le_min ?_ (by norm_num)
  refine le_trans ?_ (le_max_left _ _)
  linarith

/-- C5, counterexample: with identical arguments the scorer returns
different values at wall-clock hours 8 and 9 (the working-hours bonus),
so it is not independent of the wall clock. -/
theorem C5_counterexample :
    ImportanceCalculator.calculate_conversation_importance
        "".data "".data "search" "u" (some ⟨1, 0⟩) 8 ≠
      ImportanceCalculator.calculate_conversation_importance
        "".data "".data "search" "u" (some ⟨1, 0⟩) 9 := by decide

/-- C5, amended: the scorer is deterministic in its arguments and the
wall-clock hour, and depends on the hour only through the working-hours
test 9 <= hour <= 18: two calls with identical arguments whose hours fall
on the same side of that test return equal scores. -/
theorem C5_deterministic_given_hour (message response : List Char)
    (intent : String) (user_id : String)
    (context : Option ImportanceCalculator.ConversationContext)
    {h1 h2 : Nat} (hiff : (9 ≤ h1 ∧ h1 ≤ 18) ↔ (9 ≤ h2 ∧ h2 ≤ 18)) :
    ImportanceCalculator.calculate_conversation_importance
        message response intent user_id context h1 =
      ImportanceCalculator.calculate_conversation_importance
        message response intent user_id context h2 := by
  simp only [ImportanceCalculator.calculate_conversation_importance]
  rw [calculate_context_score_hour_congr context hiff]

/-- C5, witness: the amended determinism at the concrete hours 10 and 12. -/
theorem C5_witness :
    ImportanceCalculator.calculate_conversation_importance
        "".data "".data "search" "u" (some ⟨1, 0⟩) 10 =
      ImportanceCalculator.calculate_conversation_importance
        "".data "".data "search" "u" (some ⟨1, 0⟩) 12 :=
  C5_deterministic_given_hour "".data "".data "search" "u" (some ⟨1, 0⟩)
    (by decide)

/-! ## C1: long-term storage result -/

/-- C1, counterexample: with an importance score at the threshold (0.6) and
an EMPTY embedding vector, process_conversation_for_storage still returns
stored = true, and its memory_id is the empty string rather than a fresh
upsert id - _store_semantic_memory swallows the embedding failure and
returns "", which the caller does not check. -/
theorem C1_counterexample :
    (LongTermMemory.process_conversation_for_storage true c1_message "".data
        "search" "u" 3 [] true "fresh-id").stored = true ∧
    (LongTermMemory.process_conversation_for_storage true c1_message "".data
        "search" "u" 3 [] true "fresh-id").memory_id = some "" := by
  exact ⟨by decide, by decide⟩

/-- C1, amended: stored = true holds exactly when long-term memory is
enabled and the importance score reaches the threshold, regardless of the
embedding; when the score is below the threshold stored = false with no
memory id; when stored = true the memory_id is the fresh upsert id only if
the embedding is non-empty and the upsert succeeded, and the empty string
when the embedding is empty (the failure is only logged). -/
theorem C1_storage_result (enabled : Bool) (message response : List Char)
    (intent user_id : String) (hour : Nat) (embedding : List ℚ)
    (upsert_ok : Bool) (fresh_id : String) :
    ((LongTermMemory.process_conversation_for_storage enabled message response
        intent user_id hour embedding upsert_ok fresh_id).stored = true ↔
      enabled = true ∧
        LongTermMemory.min_importance_score ≤
          ImportanceCalculator.calculate_conversation_importance message
            response intent user_id (some ⟨1, 0⟩) hour) ∧
    ((LongTermMemory.process_conversation_for_storage enabled message response
        intent user_id hour embedding upsert_ok fresh_id).stored = false →
      (LongTermMemory.process_conversation_for_storage enabled message response
        intent user_id hour embedding upsert_ok fresh_id).memory_id = none) ∧
    ((LongTermMemory.process_conversation_for_storage enabled message response
        intent user_id hour embedding upsert_ok fresh_id).stored = true →
      embedding = [] →
      (LongTermMemory.process_conversation_for_storage enabled message response
        intent user_id hour embedding upsert_ok fresh_id).memory_id = some "") ∧
    ((LongTermMemory.process_conversation_for_storage enabled message response
        intent user_id hour embedding upsert_ok fresh_id).stored = true →
      embedding ≠ [] → upsert_ok = true →
      (LongTermMemory.process_conversation_for_storage enabled message response
        intent user_id hour embedding upsert_ok fresh_id).memory_id =
          some fresh_id) := by
  cases enabled with
  | false =>
    simp [LongTermMemory.process_conversation_for_storage]
  | true =>
    by_cases hs : ImportanceCalculator.calculate_conversation_importance
        message response intent user_id (some ⟨1, 0⟩) hour ≥
        LongTermMemory.min_importance_score
    · refine ⟨?_, ?_, ?_, ?_⟩
      · simp [LongTermMemory.process_conversation_for_storage, hs]
      · simp [LongTermMemory.process_conversation_for_storage, hs]
      · intro _ hemb
        simp [LongTermMemory.process_conversation_for_storage, hs,
          LongTermMemory.store_semantic_memory, hemb]
      · intro _ hemb hok
        simp [LongTermMemory.process_conversation_for_storage, hs,
          LongTermMemory.store_semantic_memory,
          LongTermMemory.add_semantic_memory, hemb, hok,
          List.isEmpty_eq_true]
    · refine ⟨?_, ?_, ?_, ?_⟩
      · simp [LongTermMemory.process_conversation_for_storage, hs]
      · simp [LongTermMemory.process_conversation_for_storage, hs]
      · intro hst
        simp [LongTermMemory.process_conversation_for_storage, hs] at hst
      · intro hst
        simp [LongTermMemory.process_conversation_for_storage, hs] at hst

/-- C1, witness: the amended statement applied at a concrete stored turn
with an empty embedding: the result carries memory_id = "". -/
theorem C1_witness :
    (LongTermMemory.process_conversation_for_storage true c1_message "".data
        "search" "u" 3 [] true "fid").memory_id = some "" :=
  (C1_storage_result true c1_message "".data "search" "u" 3 [] true "fid").2.2.1
    ((C1_storage_result true c1_message "".data "search" "u" 3 [] true
        "fid").1.mpr ⟨rfl, by decide⟩)
    rfl

/-! ## C2: compression-enqueue thresholds of smart_store_conversation -/

/-- Filtering keeps a replicated list whose element satisfies the
predicate. -/
theorem filter_replicate_pos (p : α → Bool) (n : Nat) (a : α)
    (h : p a = true) :
    (List.replicate n a).filter p = List.replicate n a := by
  induction n with
  | zero => rfl
  | succ n ih => simp [List.replicate_succ, List.filter_cons, h, ih]

/-- Reversing a replicated list changes nothing. -/
theorem reverse_replicate_self (n : Nat) (a : α) :
    (List.replicate n a).reverse = List.replicate n a := by
  induction n with
  | zero => rfl
  | succ n ih =>
    rw [List.replicate_succ, List.reverse_cons, ih, ← List.replicate_succ',
      List.replicate_succ]

/-- The splitter walks through a run of non-whitespace characters by
moving it into the accumulator. -/
theorem splitWsAux_replicate_nonws (c : Char) (h : c.isWhitespace = false) :
    ∀ (n : Nat) (s acc : List Char),
      splitWsAux (List.replicate n c ++ s) acc =
        splitWsAux s (List.replicate n c ++ acc) := by
  intro n
  induction n with
  | zero => intro s acc; rfl
  | succ n ih =>
    intro s acc
    have h1 : List.replicate (n + 1) c ++ s = c :: (List.replicate n c ++ s) := by
      rw [List.replicate_succ, List.cons_append]
    have h2 : List.replicate (n + 1) c ++ acc =
        List.replicate n c ++ (c :: acc) := by
      rw [List.replicate_succ', List.append_assoc]
      rfl
    have hstep : splitWsAux (c :: (List.replicate n c ++ s)) acc =
        splitWsAux (List.replicate n c ++ s) (c :: acc) := by
      simp [splitWsAux, h]
    rw [h1, h2, hstep]
    exact ih s (c :: acc)

/-- A nonempty replicated list is not empty. -/
theorem isEmpty_replicate_false (n : Nat) (a : α) (hn : n ≠ 0) :
    (List.replicate n a).isEmpty = false := by
  cases n with
  | zero => exact absurd rfl hn
  | succ m => rw [List.replicate_succ]; rfl

/-- A nonempty replicated CJK run is a single alphabetic token. -/
theorem pyIsAlphaWord_replicate (n : Nat) (hn : n ≠ 0) :
    pyIsAlphaWord (List.replicate n '中') = true := by
  have hall : (List.replicate n '中').all pyIsAlphaChar = true := by
    rw [List.all_eq_true]
    intro x hx
    rw [List.eq_of_mem_replicate hx]
    decide
  rw [pyIsAlphaWord, isEmpty_replicate_false n '中' hn, hall]
  rfl

/-- The estimator's text of the one-turn boundary conversation. -/
theorem c2_text_lemma (n : Nat) :
    ShortTermMemory.messages_text [⟨List.replicate n '中', "ab cd".data⟩] =
      List.replicate n '中' ++ (' ' :: "ab cd".data) := by
  show (List.replicate n '中' ++ [' '] ++ "ab cd".data) ++ [] =
    List.replicate n '中' ++ (' ' :: "ab cd".data)
  rw [List.append_nil, List.append_assoc]
  rfl

/-- Splitting that text yields the CJK run and the two ASCII words. -/
theorem splitWs_c2_text (n : Nat) (hn : n ≠ 0) :
    splitWs (List.replicate n '中' ++ (' ' :: "ab cd".data)) =
      List.replicate n '中' :: [['a', 'b'], ['c', 'd']] := by
  rw [splitWs, splitWsAux_replicate_nonws '中' (by decide) n
    (' ' :: "ab cd".data) [], List.append_nil]
  have hstep : splitWsAux (' ' :: "ab cd".data) (List.replicate n '中') =
      (List.replicate n '中').reverse :: splitWsAux "ab cd".data [] := by
    simp [splitWsAux, isEmpty_replicate_false n '中' hn,
      show ' '.isWhitespace = true from by decide]
  rw [hstep, reverse_replicate_self,
    show splitWsAux "ab cd".data [] = [['a', 'b'], ['c', 'd']] from by decide]

/-- The token estimate of the boundary turn list is exactly 3000: the 1998
CJK characters contribute 2997 and the three alphabetic tokens (the CJK
run, ab, cd) contribute 3. -/
theorem c2_boundary_count :
    ShortTermMemory.count_tokens_for_messages c2_boundary_messages = 3000 := by
  have htext : ShortTermMemory.messages_text c2_boundary_messages =
      List.replicate 1998 '中' ++ (' ' :: "ab cd".data) := c2_text_lemma 1998
  have hcjk : ((ShortTermMemory.messages_text c2_boundary_messages).filter
      isCJK).length = 1998 := by
    rw [htext, List.filter_append,
      filter_replicate_pos isCJK 1998 '中' (by decide),
      show (' ' :: "ab cd".data).filter isCJK = [] from by decide,
      List.append_nil, List.length_replicate]
  have hwords : ((splitWs (ShortTermMemory.messages_text
      c2_boundary_messages)).filter pyIsAlphaWord).length = 3 := by
    rw [htext, splitWs_c2_text 1998 (by decide), List.filter_cons,
      pyIsAlphaWord_replicate 1998 (by decide), if_pos rfl,
      show (([['a', 'b'], ['c', 'd']] : List (List Char)).filter
        pyIsAlphaWord) = [['a', 'b'], ['c', 'd']] from by decide]
    rfl
  show (3 * ((ShortTermMemory.messages_text c2_boundary_messages).filter
      isCJK).length) / 2 +
    ((splitWs (ShortTermMemory.messages_text c2_boundary_messages)).filter
      pyIsAlphaWord).length = 3000
  rw [hcjk, hwords]

/-- C2, counterexample: a turn list whose token estimate is exactly
max_tokens = 3000 enqueues a NORMAL-priority job, not a high-priority one:
both comparisons in the source are strict. -/
theorem C2_counterexample :
    ShortTermMemory.count_tokens_for_messages c2_boundary_messages = 3000 ∧
    ShortTermMemory.smart_store_decision c2_boundary_messages =
      some ShortTermMemory.Priority.normal := by
  refine ⟨c2_boundary_count, ?_⟩
  simp only [ShortTermMemory.smart_store_decision, ShortTermMemory.max_tokens,
    ShortTermMemory.warning_tokens, c2_boundary_count]
  norm_num

/-- C2, amended: a compression job is enqueued only when the estimate
strictly exceeds warning_tokens = 2500, with priority high exactly when it
strictly exceeds max_tokens = 3000; at exactly 3000 the job has priority
normal, and at or below 2500 (including exactly 2500) no job is enqueued. -/
theorem C2_enqueue_thresholds (messages : List ShortTermMemory.Msg) :
    (ShortTermMemory.max_tokens <
        ShortTermMemory.count_tokens_for_messages messages →
      ShortTermMemory.smart_store_decision messages =
        some ShortTermMemory.Priority.high) ∧
    (ShortTermMemory.warning_tokens <
        ShortTermMemory.count_tokens_for_messages messages →
      ShortTermMemory.count_tokens_for_messages messages ≤
        ShortTermMemory.max_tokens →
      ShortTermMemory.smart_store_decision messages =
        some ShortTermMemory.Priority.normal) ∧
    (ShortTermMemory.count_tokens_for_messages messages ≤
        ShortTermMemory.warning_tokens →
      ShortTermMemory.smart_store_decision messages = none) := by
  simp only [ShortTermMemory.smart_store_decision, ShortTermMemory.max_tokens,
    ShortTermMemory.warning_tokens]
  refine ⟨fun h => ?_, fun h1 h2 => ?_, fun h => ?_⟩
  · rw [if_pos (by omega), if_pos (by omega)]
  · rw [if_pos (by omega), if_neg (by omega)]
  · rw [if_neg (by omega)]

/-- C2, witness: the amended thresholds applied at the concrete boundary
list whose estimate is exactly 3000. -/
theorem C2_witness :
    ShortTermMemory.smart_store_decision c2_boundary_messages =
      some ShortTermMemory.Priority.normal :=
  (C2_enqueue_thresholds c2_boundary_messages).2.1
    (by rw [c2_boundary_count]; decide) (by rw [c2_boundary_count]; decide)

/-! ## C3: the full-queue high-priority path -/

/-- C3: evaluation at the failing input.  With the queue at its capacity of
100 and containing a normal-priority job, enqueuing a high-priority job
leaves the queue unchanged and drops the new job: the source calls
collections.deque.pop with an index, which raises TypeError (deque.pop
takes no argument), and the enclosing handler swallows it - the eviction
and the insertion at the head never happen. -/
theorem C3_full_queue_high_priority_drops_job :
    c3_full_queue.length = ShortTermMemory.max_queue_size ∧
    c3_full_queue.any (fun t => t.priority = .normal) = true ∧
    ShortTermMemory.queue_compression_task c3_full_queue c3_new_high_task =
      ⟨c3_full_queue, false, true⟩ := by
  exact ⟨by decide, by decide, by decide⟩

/-! ## C4: token-estimate monotonicity -/

/-- C4, counterexample: appending the turn ("1", "") to the single turn
("a", "b") DECREASES the estimate from 2 to 1: turn texts are concatenated
without a separator, so the trailing word b merges with the next turn's 1
into the non-alphabetic token b1, which no longer counts. -/
theorem C4_counterexample :
    ShortTermMemory.count_tokens_for_messages
        ([⟨"a".data, "b".data⟩] ++ [⟨"1".data, "".data⟩]) <
      ShortTermMemory.count_tokens_for_messages [⟨"a".data, "b".data⟩] := by
  decide

/-- Appending text to the right can destroy at most the last token of the
split: the number of tokens satisfying p drops by at most one. -/
theorem splitWsAux_filter_le (p : List Char → Bool) (B : List Char) :
    ∀ (A acc : List Char),
      ((splitWsAux A acc).filter p).length ≤
        ((splitWsAux (A ++ B) acc).filter p).length + 1 := by
  intro A
  induction A with
  | nil =>
    intro acc
    by_cases hacc : acc.isEmpty
    · simp [splitWsAux, hacc]
    · have h1 : ((splitWsAux [] acc).filter p).length ≤ 1 := by
        simp only [splitWsAux, hacc, if_false, Bool.false_eq_true]
        cases hp : p acc.reverse <;> simp [List.filter, hp]
      omega
  | cons c cs ih =>
    intro acc
    simp only [List.cons_append, splitWsAux]
    by_cases hws : c.isWhitespace
    · by_cases hacc : acc.isEmpty
      · simpa [hws, hacc] using ih []
      · have h1 := ih []
        cases hp : p acc.reverse <;>
          simp [hws, hacc, List.filter_cons, hp] <;> omega
    · simpa [hws] using ih (c :: acc)

/-- The estimator's text for an extended turn list. -/
theorem messages_text_append (messages : List ShortTermMemory.Msg)
    (t : ShortTermMemory.Msg) :
    ShortTermMemory.messages_text (messages ++ [t]) =
      ShortTermMemory.messages_text messages ++
        (t.user_message ++ [' '] ++ t.ai_response) := by
  simp [ShortTermMemory.messages_text]

/-- C4, amended: the token estimate is monotone up to a slack of one token:
appending a turn can lower the estimate by at most 1 (the CJK count never
drops; at most the final alphabetic word of the existing text can be
destroyed by the separator-free concatenation).  The original claim
estimate(turns ++ [t]) >= estimate(turns) is false (see the
counterexample). -/
theorem C4_estimate_near_monotone (turns : List ShortTermMemory.Msg)
    (t : ShortTermMemory.Msg) :
    ShortTermMemory.count_tokens_for_messages turns ≤
      ShortTermMemory.count_tokens_for_messages (turns ++ [t]) + 1 := by
  simp only [ShortTermMemory.count_tokens_for_messages,
    messages_text_append turns t]
  have hcjk :
      ((ShortTermMemory.messages_text turns).filter isCJK).length ≤
        (((ShortTermMemory.messages_text turns) ++
            (t.user_message ++ [' '] ++ t.ai_response)).filter isCJK).length := by
    simp [List.filter_append]
  have hwords := splitWsAux_filter_le pyIsAlphaWord
    (t.user_message ++ [' '] ++ t.ai_response)
    (ShortTermMemory.messages_text turns) []
  simp only [splitWs] at *
  have hdiv :
      3 * ((ShortTermMemory.messages_text turns).filter isCJK).length / 2 ≤
        3 * (((ShortTermMemory.messages_text turns) ++
            (t.user_message ++ [' '] ++ t.ai_response)).filter isCJK).length / 2 :=
    Nat.div_le_div_right (Nat.mul_le_mul_left 3 hcjk)
  omega

/-! ## C6: incremental compression structure -/

/-- C6, counterexample: with 13 stored turns (3 to summarize) the source
generates an L2 summary although L2's cap 5 exceeds 3 - the claim's skip
rule says L2 must be skipped; and with 19 turns (9 to summarize, generator
always succeeding with S) the L2 and L1 generations receive prior None,
not the freshly produced larger-level summary the claim describes. -/
theorem C6_counterexample :
    (ShortTermMemory.incremental_compression c6_gen (fun _ => none)
          (List.replicate 13 c6_m0)).events.map
        (fun e => (e.layer, e.prior)) =
      [(ShortTermMemory.Layer.L2, none), (ShortTermMemory.Layer.L1, none)] ∧
    (ShortTermMemory.incremental_compression c6_gen (fun _ => none)
          (List.replicate 19 c6_m0)).events.map
        (fun e => (e.layer, e.prior)) =
      [(ShortTermMemory.Layer.L3, none), (ShortTermMemory.Layer.L2, none),
       (ShortTermMemory.Layer.L1, none)] := by
  exact ⟨by decide, by decide⟩

/-- C6, amended: fewer than 6 turns, or at most 10 turns, is a no-op with
no generation; with more than 10 turns the 10 most-recent are kept and the
older ones summarized, generating in order L3 (over all older turns, only
when at least 8 of them exist), then L2 (over the last 5 older turns when
L3 was generated, or over all older turns when there are 3 to 7 of them),
then always L1 (over the last 2 older turns); each generation receives the
previously stored summary of its own level as prior, never the freshly
produced larger-level summary. -/
theorem C6_compression_structure
    (gen : ShortTermMemory.Layer → List ShortTermMemory.Msg →
      Option (List Char) → Option (List Char))
    (existing : ShortTermMemory.Layer → Option (List Char))
    (messages : List ShortTermMemory.Msg) :
    (messages.length < 6 →
      ShortTermMemory.incremental_compression gen existing messages =
        ⟨messages, [], []⟩) ∧
    (6 ≤ messages.length → messages.length ≤ 10 →
      ShortTermMemory.incremental_compression gen existing messages =
        ⟨messages, [], []⟩) ∧
    (10 < messages.length →
      (ShortTermMemory.incremental_compression gen existing messages).kept =
          messages.drop (messages.length - 10) ∧
      (ShortTermMemory.incremental_compression gen existing
            messages).events.map (fun e => (e.layer, e.msgs, e.prior)) =
        (if 8 ≤ messages.length - 10 then
          [(ShortTermMemory.Layer.L3, messages.take (messages.length - 10),
              existing .L3),
           (ShortTermMemory.Layer.L2,
              lastN 5 (messages.take (messages.length - 10)), existing .L2),
           (ShortTermMemory.Layer.L1,
              lastN 2 (messages.take (messages.length - 10)), existing .L1)]
        else if 3 ≤ messages.length - 10 then
          [(ShortTermMemory.Layer.L2, messages.take (messages.length - 10),
              existing .L2),
           (ShortTermMemory.Layer.L1,
              lastN 2 (messages.take (messages.length - 10)), existing .L1)]
        else
          [(ShortTermMemory.Layer.L1,
              lastN 2 (messages.take (messages.length - 10)),
              existing .L1)])) := by
  have hmax : max (max (ShortTermMemory.layer_max_turns .L1)
      (ShortTermMemory.layer_max_turns .L2))
      (ShortTermMemory.layer_max_turns .L3) = 10 := by decide
  refine ⟨fun h => ?_, fun h6 h10 => ?_, fun h => ?_⟩
  · simp [ShortTermMemory.incremental_compression, h]
  · have hn6 : ¬ messages.length < 6 := by omega
    have hngt : ¬ messages.length > 10 := by omega
    simp [ShortTermMemory.incremental_compression, hn6, hmax, hngt]
  · have hn6 : ¬ messages.length < 6 := by omega
    have hgt : messages.length > 10 := h
    have hlen : (messages.take (messages.length - 10)).length =
        messages.length - 10 := by
      rw [List.length_take]
      omega
    have hne : ¬ (messages.take (messages.length - 10)).isEmpty = true := by
      rw [List.isEmpty_iff_length_eq_zero, hlen]
      omega
    have h1 : 1 ≤ messages.length - 10 := by omega
    by_cases h8 : 8 ≤ messages.length - 10
    · simp [ShortTermMemory.incremental_compression, hn6, hmax, hgt, hne,
        hlen, h8, h1]
    · by_cases h3 : 3 ≤ messages.length - 10
      · simp [ShortTermMemory.incremental_compression, hn6, hmax, hgt, hne,
          hlen, h8, h3, h1]
      · simp [ShortTermMemory.incremental_compression, hn6, hmax, hgt, hne,
          hlen, h8, h3, h1]

/-- C6, witness: the amended no-op branch applied at a concrete
7-turn conversation. -/
theorem C6_witness :
    ShortTermMemory.incremental_compression c6_gen (fun _ => none)
        (List.replicate 7 c6_m0) =
      ⟨List.replicate 7 c6_m0, [], []⟩ :=
  (C6_compression_structure c6_gen (fun _ => none)
      (List.replicate 7 c6_m0)).2.1 (by decide) (by decide)

/-! ## C7: the persistence-result event precedes end -/

/-- In a stream made of persistence-free events followed by the
finalization pair, every end event is preceded by a persistence-result
event. -/
theorem end_preceded_by_persistence (pre : List ChatService.SSEEvent)
    (outcome : ChatService.PersistOutcome)
    (hpre : ∀ e ∈ pre, ChatService.isPersistenceResult e = false ∧
      e ≠ ChatService.SSEEvent.end_) :
    ∀ j, (pre ++ ChatService.finalize_stream_response outcome).get? j =
        some ChatService.SSEEvent.end_ →
      ∃ i, i < j ∧ ∃ e,
        (pre ++ ChatService.finalize_stream_response outcome).get? i = some e ∧
        ChatService.isPersistenceResult e = true := by
  intro j hj
  rcases Nat.lt_or_ge j pre.length with hlt | hge
  · rw [List.get?_append hlt] at hj
    exact absurd rfl (hpre _ (List.get?_mem hj)).2
  · rw [List.get?_append_right hge] at hj
    have hp : ChatService.isPersistenceResult
        (ChatService.create_messages_after_stream outcome) = true := by
      cases outcome <;> rfl
    have hne : ChatService.create_messages_after_stream outcome ≠
        ChatService.SSEEvent.end_ := by
      cases outcome <;> simp [ChatService.create_messages_after_stream]
    match hd : j - pre.length, hj with
    | 0, hj =>
      simp only [ChatService.finalize_stream_response, List.get?] at hj
      exact absurd (Option.some.inj hj) hne
    | 1, hj =>
      refine ⟨pre.length, by omega, ChatService.create_messages_after_stream
        outcome, ?_, hp⟩
      rw [List.get?_append_right (Nat.le_refl _), Nat.sub_self]
      rfl
    | n + 2, hj =>
      simp [ChatService.finalize_stream_response, List.get?] at hj

/-- C7: in the _handle_normal_intent stream the persistence-result event
(message_created, or message_creation_error when the write fails) exists
and strictly precedes the end event, and every end event in either the
normal-intent or the code-intent stream is preceded by a
persistence-result event; the code-intent early returns emit no end at
all, so the property covers every stream that reaches persistence. -/
theorem C7_persistence_before_end (chunks : List String)
    (outcome : ChatService.PersistOutcome) (code : Option String)
    (execution : ChatService.ExecutionResult) (chunks2 : List String) :
    ((ChatService.handle_normal_intent chunks outcome).get? chunks.length =
        some (ChatService.create_messages_after_stream outcome) ∧
      (ChatService.handle_normal_intent chunks outcome).get?
          (chunks.length + 1) = some ChatService.SSEEvent.end_) ∧
    (∀ j, (ChatService.handle_normal_intent chunks outcome).get? j =
        some ChatService.SSEEvent.end_ →
      ∃ i, i < j ∧ ∃ e,
        (ChatService.handle_normal_intent chunks outcome).get? i = some e ∧
        ChatService.isPersistenceResult e = true) ∧
    (∀ j, (ChatService.handle_code_intent code execution chunks2
          outcome).get? j = some ChatService.SSEEvent.end_ →
      ∃ i, i < j ∧ ∃ e,
        (ChatService.handle_code_intent code execution chunks2
          outcome).get? i = some e ∧
        ChatService.isPersistenceResult e = true) := by
  have hcontent : ∀ (l : List String), ∀ e ∈ l.map ChatService.SSEEvent.content,
      ChatService.isPersistenceResult e = false ∧
        e ≠ ChatService.SSEEvent.end_ := by
    intro l e he
    rcases List.mem_map.mp he with ⟨c, _, rfl⟩
    exact ⟨rfl, by simp⟩
  refine ⟨⟨?_, ?_⟩, ?_, ?_⟩
  · rw [ChatService.handle_normal_intent,
      List.get?_append_right (by simp : (chunks.map ChatService.SSEEvent.content).length ≤ chunks.length)]
    simp [ChatService.finalize_stream_response]
  · rw [ChatService.handle_normal_intent,
      List.get?_append_right (by simp : (chunks.map ChatService.SSEEvent.content).length ≤ chunks.length + 1)]
    simp [ChatService.finalize_stream_response]
  · exact end_preceded_by_persistence _ outcome (hcontent chunks)
  · cases code with
    | none =>
      intro j hj
      rcases j with _ | _ | j <;>
        simp [ChatService.handle_code_intent, List.get?] at hj
    | some c =>
      by_cases hex : execution.success
      · have hpre : ∀ e ∈ ChatService.SSEEvent.content "🔍 正在处理您的请求...\n\n" ::
            (chunks2.map ChatService.SSEEvent.content ++
              execution.images.map (fun p => ChatService.SSEEvent.image p.1 p.2)),
            ChatService.isPersistenceResult e = false ∧
              e ≠ ChatService.SSEEvent.end_ := by
          intro e he
          rcases List.mem_cons.mp he with rfl | he
          · exact ⟨rfl, by simp⟩
          · rcases List.mem_append.mp he with he | he
            · exact hcontent chunks2 e he
            · rcases List.mem_map.mp he with ⟨p, _, rfl⟩
              exact ⟨rfl, by simp⟩
        have heq : ChatService.handle_code_intent (some c) execution chunks2
            outcome =
            (ChatService.SSEEvent.content "🔍 正在处理您的请求...\n\n" ::
              (chunks2.map ChatService.SSEEvent.content ++
                execution.images.map
                  (fun p => ChatService.SSEEvent.image p.1 p.2))) ++
              ChatService.finalize_stream_response outcome := by
          simp [ChatService.handle_code_intent, hex]
        rw [heq]
        exact end_preceded_by_persistence _ outcome hpre
      · intro j hj
        have hex' : execution.success = false := by
          cases hx : execution.success
          · rfl
          · exact absurd hx hex
        rcases j with _ | _ | j <;>
          simp [ChatService.handle_code_intent, hex', List.get?] at hj

/-- C7, witness: in a concrete one-chunk stream with successful
persistence, the end event at index 2 is preceded by a persistence-result
event. -/
theorem C7_witness :
    ∃ i, i < 2 ∧ ∃ e,
      (ChatService.handle_normal_intent ["hi"]
          (ChatService.PersistOutcome.created "u1" "a1")).get? i = some e ∧
      ChatService.isPersistenceResult e = true :=
  (C7_persistence_before_end ["hi"]
      (ChatService.PersistOutcome.created "u1" "a1") none
      ⟨true, "", [], ""⟩ []).2.1 2 (by decide)

/-! ## C9: only the first detected URL is fetched -/

/-- C9: with no attachments and at least one URL in the message, the
classifier's result depends on the web analyzer only through its behaviour
on the FIRST detected URL: two analyzers that agree there produce
identical results, whatever they do on the remaining URLs - so the
remaining URLs are never fetched and contribute nothing. -/
theorem C9_only_first_url_fetched (message : String)
    (fetch1 fetch2 : String → IntentService.WebFetch)
    (llm : IntentService.LLMAnalysis) (search : Except String String)
    (u : String) (restUrls : List String)
    (hdetect : IntentService.detect_urls message = u :: restUrls)
    (hagree : fetch1 u = fetch2 u) :
    IntentService.process_intent fetch1 llm search message [] =
      IntentService.process_intent fetch2 llm search message [] := by
  simp [IntentService.process_intent, IntentService.process_message_intent,
    hdetect, hagree]

/-- C9, witness: a message containing two URLs, classified with two
analyzers that agree on the first URL and disagree (plain failure versus
anti-scrape) on the second: the results coincide. -/
theorem C9_witness :
    IntentService.process_intent c9_fetch1 c9_llm (Except.error "down")
        "去 http://ab 和 http://cd 看" [] =
      IntentService.process_intent c9_fetch2 c9_llm (Except.error "down")
        "去 http://ab 和 http://cd 看" [] :=
  C9_only_first_url_fetched "去 http://ab 和 http://cd 看" c9_fetch1 c9_fetch2
    c9_llm (Except.error "down") "http://ab" ["http://cd"] (by decide)
    (by decide)

/-! ## C10: get_recent_conversations -/

/-- C10, counterexample: with limit = 0 the LRANGE end index limit - 1 is
-1, which Redis reads as the last element, so the WHOLE stored list is
returned: two entries, exceeding the limit of zero. -/
theorem C10_counterexample :
    (RedisManager.get_recent_conversations (Except.ok c10_entries) "c"
        0).length = 2 := by
  decide

/-- The parse loop aborts exactly when a non-object entry is present. -/
theorem parse_loop_eq_none_iff (conversation_id : String) :
    ∀ entries, RedisManager.parse_loop conversation_id entries = none ↔
      RedisManager.RedisEntry.nonObject ∈ entries := by
  intro entries
  induction entries with
  | nil => simp [RedisManager.parse_loop]
  | cons e rest ih =>
    cases e with
    | obj m r t md => simp [RedisManager.parse_loop, Option.map_eq_none', ih]
    | malformed => simp [RedisManager.parse_loop, ih]
    | nonObject => simp [RedisManager.parse_loop]

/-- Without non-object entries the parse loop keeps exactly the object
entries, in order. -/
theorem parse_loop_eq_some (conversation_id : String) :
    ∀ entries, RedisManager.RedisEntry.nonObject ∉ entries →
      RedisManager.parse_loop conversation_id entries =
        some (entries.filterMap (entryToConv conversation_id)) := by
  intro entries
  induction entries with
  | nil => simp [RedisManager.parse_loop]
  | cons e rest ih =>
    intro hmem
    have hrest : RedisManager.RedisEntry.nonObject ∉ rest :=
      fun hx => hmem (List.mem_cons_of_mem _ hx)
    cases e with
    | obj m r t md =>
      simp [RedisManager.parse_loop, entryToConv, ih hrest]
    | malformed =>
      simp [RedisManager.parse_loop, entryToConv, ih hrest]
    | nonObject =>
      exact absurd (List.mem_cons_self _ _) hmem

/-- Parsing never produces more conversations than entries. -/
theorem parse_loop_length_le (conversation_id : String) :
    ∀ entries conversations,
      RedisManager.parse_loop conversation_id entries = some conversations →
      conversations.length ≤ entries.length := by
  intro entries
  induction entries with
  | nil =>
    intro conversations hc
    simp [RedisManager.parse_loop] at hc
    simp [← hc]
  | cons e rest ih =>
    intro conversations hc
    cases e with
    | obj m r t md =>
      simp only [RedisManager.parse_loop, Option.map_eq_some'] at hc
      rcases hc with ⟨cs, hcs, rfl⟩
      have := ih cs hcs
      simp only [List.length_cons]
      omega
    | malformed =>
      simp only [RedisManager.parse_loop] at hc
      have := ih conversations hc
      simp only [List.length_cons]
      omega
    | nonObject =>
      simp [RedisManager.parse_loop] at hc

/-- C10, amended: a key/value-store error yields the empty list (no
exception escapes); for limit >= 1 at most limit entries are returned;
and on a successful read of the stored (newest-first) list, if no
valid-JSON non-object entry is among the selected ones, the result is the
object entries among the limit newest, in chronological order (reversed),
silently skipping entries that fail JSON parsing - while a non-object
entry aborts the scan and yields the empty list.  For limit = 0 the whole
stored list is selected (see the counterexample). -/
theorem C10_recent_conversations (store : Except String
    (List RedisManager.RedisEntry)) (conversation_id : String) (limit : Nat) :
    (∀ e, store = Except.error e →
      RedisManager.get_recent_conversations store conversation_id limit = []) ∧
    (1 ≤ limit →
      (RedisManager.get_recent_conversations store conversation_id
        limit).length ≤ limit) ∧
    (∀ l, store = Except.ok l →
      (RedisManager.RedisEntry.nonObject ∈ RedisManager.lrange_take l limit →
        RedisManager.get_recent_conversations store conversation_id limit =
          []) ∧
      (RedisManager.RedisEntry.nonObject ∉ RedisManager.lrange_take l limit →
        RedisManager.get_recent_conversations store conversation_id limit =
          ((RedisManager.lrange_take l limit).filterMap
            (entryToConv conversation_id)).reverse)) := by
  refine ⟨?_, ?_, ?_⟩
  · intro e he
    rw [he]
    rfl
  · intro hl
    cases store with
    | error e => simp [RedisManager.get_recent_conversations]
    | ok l =>
      simp only [RedisManager.get_recent_conversations]
      cases hp : RedisManager.parse_loop conversation_id
          (RedisManager.lrange_take l limit) with
      | none => simp
      | some conversations =>
        have hle := parse_loop_length_le conversation_id _ _ hp
        have htake : (RedisManager.lrange_take l limit).length ≤ limit := by
          rw [RedisManager.lrange_take, if_neg (by omega)]
          exact List.length_take_le _ _
        simp only [List.length_reverse]
        omega
  · intro l hl
    subst hl
    constructor
    · intro hmem
      simp only [RedisManager.get_recent_conversations,
        (parse_loop_eq_none_iff conversation_id _).mpr hmem]
    · intro hmem
      simp only [RedisManager.get_recent_conversations,
        parse_loop_eq_some conversation_id _ hmem]

/-- C10, witness: the amended bound applied at limit 1 over two stored
entries: at most one conversation is returned. -/
theorem C10_witness :
    (RedisManager.get_recent_conversations (Except.ok c10_entries) "c"
        1).length ≤ 1 :=
  (C10_recent_conversations (Except.ok c10_entries) "c" 1).2.1 (by decide)
